import Mathlib

/-
Verification of the session/heartbeat engine of the analytics package
(`src/visitor-tracker.tsx`, the file exported by `src/index.ts`, together
with the storage adapter `storage-utils.ts`).

The embedding is shallow: timestamps are `Int` (milliseconds, as produced
by `Date.now()`), strings are Lean `String`s viewed as lists of characters
(JavaScript strings are UTF-16; every input we reason about is within the
basic plane, where code points and code units agree), browser storage is
modelled as explicit record state threaded through the functions, and the
single-threaded event loop is a labelled transition function on an engine
state.  Randomness (`crypto.getRandomValues`) is an explicit byte-list
parameter, and the wall clock is an explicit `now` parameter.
-/

namespace Analytics

/-! ## Constants (from `visitor-tracker.tsx` and `storage-utils.ts`) -/

def SESSION_TIMEOUT : Int := 30 * 60 * 1000

def inactivityThreshold : Int := 2 * 60 * 1000

def VISITOR_TTL : Int := 30 * 24 * 60 * 60 * 1000

/-! ## Base-36 rendering (`Number.prototype.toString(36)`)

JavaScript renders a non-negative integer in base 36 with digits
`0-9a-z`, most significant digit first.  The fuel argument bounds the
recursion depth; 64 digits cover every number below `36 ^ 64`, far beyond
the 53-bit range of JavaScript numbers. -/

def digitChar36 (n : Nat) : Char :=
  if n < 10 then Char.ofNat (48 + n) else Char.ofNat (87 + n)

def toBase36Core : Nat → Nat → List Char
  | 0, _ => []
  | fuel + 1, n =>
    if n < 36 then [digitChar36 n]
    else toBase36Core fuel (n / 36) ++ [digitChar36 (n % 36)]

def natToBase36 (n : Nat) : String :=
  ⟨toBase36Core 64 n⟩

/-! ## JavaScript string operations used by the tracker -/

/-- The characters matched by `\s` in a JavaScript regular expression and
removed by `String.prototype.trim` (ASCII whitespace plus the common
Unicode space code points). -/
def isJsWhitespace (c : Char) : Bool :=
  c = ' ' || c = '\t' || c = '\n' || c = '\r' ||
  c.toNat = 11 || c.toNat = 12 || c.toNat = 160 || c.toNat = 5760 ||
  (8192 ≤ c.toNat && c.toNat ≤ 8202) ||
  c.toNat = 8232 || c.toNat = 8233 || c.toNat = 8239 || c.toNat = 8287 ||
  c.toNat = 12288 || c.toNat = 65279

def jsTrimList (l : List Char) : List Char :=
  ((l.dropWhile isJsWhitespace).reverse.dropWhile isJsWhitespace).reverse

def jsTrim (s : String) : String :=
  ⟨jsTrimList s.data⟩

/-- `String.prototype.slice(-n)`: the last `n` characters (the whole
string when it is shorter). -/
def takeLastChars (n : Nat) (l : List Char) : List Char :=
  l.drop (l.length - n)

/-- Substring containment, for `String.prototype.includes` and the
alternation regex `/Mobile|Android|iPhone|iPad/.test`. -/
def strIncludes (s pat : String) : Bool :=
  s.data.tails.any (fun t => pat.data.isPrefixOf t)

/-! ## Storage adapter (`storage-utils.ts`)

`AnalyticsStorage` wraps `localStorage`: every entry carries an
`{value, expiry}` envelope and reads of expired entries behave as
misses.  (The source also removes an expired entry on read; dropping the
removal is observationally equivalent for reads, since the expiry check
fails on every later read as well.)  `AnalyticsSessionStorage` wraps
`sessionStorage` with no expiry bookkeeping; we model its three kinds of
entries (`session_data`, `isNewVisitor_*`, `session_start_*`) as typed
components, keyed by the full storage key where the key varies. -/

structure DurableEntry where
  value : String
  expiry : Int
deriving Repr, DecidableEq

structure DurableStore where
  visitor_id : Option DurableEntry
  visitors : List (String × Int)
deriving Repr, DecidableEq

def getStoredVisitorId (now : Int) (store : DurableStore) : Option String :=
  match store.visitor_id with
  | some e => if now > e.expiry then none else some e.value
  | none => none

def setStoredVisitorId (now : Int) (v : String) (store : DurableStore) : DurableStore :=
  { store with visitor_id := some ⟨v, now + VISITOR_TTL⟩ }

/-- `AnalyticsStorage.hasVisitor`: is `visitor_<id>` present and unexpired? -/
def hasVisitor (now : Int) (store : DurableStore) (visitorId : String) : Bool :=
  match store.visitors.lookup ("visitor_" ++ visitorId) with
  | some expiry => !(now > expiry)
  | none => false

/-- `AnalyticsStorage.setVisitor`: store `visitor_<id>` with the 30-day TTL. -/
def setVisitor (now : Int) (visitorId : String) (store : DurableStore) : DurableStore :=
  { store with
    visitors :=
      ("visitor_" ++ visitorId, now + VISITOR_TTL) ::
        store.visitors.filter (fun p => p.1 ≠ "visitor_" ++ visitorId) }

structure SessionData where
  session_id : String
  last_activity : Int
deriving Repr, DecidableEq

structure SessionStore where
  session_data : Option SessionData
  newVisitorCache : List (String × Bool)
  sessionStart : List (String × String)
deriving Repr, DecidableEq

/-- `sessionStorage.setItem` semantics on an association list: replace
any existing binding for the key. -/
def insertAssoc {α : Type} (k : String) (v : α) (l : List (String × α)) :
    List (String × α) :=
  (k, v) :: l.filter (fun p => p.1 ≠ k)

/-! ## Session identity (`generateSessionId`) -/

/-- `generateLightweightId` from `visitor-tracker.tsx`: the last four
base-36 characters of `Date.now()` followed by the base-36 renderings of
four random bytes (joined and cut to four characters), the whole cut to
eight characters.  The random bytes are the explicit `bytes` argument. -/
def generateLightweightId (now : Int) (bytes : List Nat) : String :=
  let timestamp := takeLastChars 4 (natToBase36 now.toNat).data
  let randomPart := ((bytes.map (fun b => (natToBase36 b).data)).flatten).take 4
  ⟨(timestamp ++ randomPart).take 8⟩

def mintSession (now : Int) (bytes : List Nat) (store : SessionStore) :
    (String × Bool) × SessionStore :=
  let newSessionId := generateLightweightId now bytes
  ((newSessionId, true),
    { store with session_data := some ⟨newSessionId, now⟩ })

/-- `generateSessionId` from `visitor-tracker.tsx`: reuse the persisted
session when its `session_id` is truthy and `now - last_activity` is
strictly below the 30-minute timeout; otherwise remove it and mint,
persist and return a fresh id with `isNewSession = true`. -/
def generateSessionId (now : Int) (bytes : List Nat) (store : SessionStore) :
    (String × Bool) × SessionStore :=
  match store.session_data with
  | some sd =>
    if sd.session_id ≠ "" then
      if now - sd.last_activity < SESSION_TIMEOUT then
        ((sd.session_id, false), store)
      else
        mintSession now bytes { store with session_data := none }
    else
      mintSession now bytes store
  | none => mintSession now bytes store

/-! ## Visitor identity (`generateVisitorId`) -/

/-- The browser environment read by the tracker: `navigator`, `screen`,
`window` dimensions and the resolved time zone. `hardwareConcurrency`
is optional in the `Navigator` type, hence `Option`. -/
structure Env where
  userAgent : String
  language : String
  screenW : Nat
  screenH : Nat
  innerW : Nat
  innerH : Nat
  hardwareConcurrency : Option Nat
  timeZone : String
deriving Repr, DecidableEq

/-- `x || "unknown"` on a JavaScript string: the fallback replaces the
empty (falsy) string. -/
def jsOrUnknown (s : String) : String :=
  if s = "" then "unknown" else s

/-- The username slug of `generateVisitorId`: trim, lowercase, whitespace
runs to `-`, strip characters outside `[a-z0-9-]`, collapse `-` runs,
trim leading/trailing `-`, cut to 50 characters, with `"unknown-user"`
replacing an empty (falsy) result.  `Char.toLower` lowercases ASCII
letters; JavaScript also lowercases non-ASCII letters, but those are
erased by the following `[^a-z0-9-]` strip in either reading. -/
def isSlugChar (c : Char) : Bool :=
  ('a' ≤ c && c ≤ 'z') || ('0' ≤ c && c ≤ '9') || c = '-'

/-- `String.prototype.replace` with a `/X+/g` pattern and `"-"`
replacement: each maximal run of characters satisfying `p` becomes a
single hyphen.  The `inRun` flag records whether the previous character
belonged to a run, giving a structural recursion. -/
def runsToHyphenAux (p : Char → Bool) : Bool → List Char → List Char
  | _, [] => []
  | inRun, c :: rest =>
    if p c then
      if inRun then runsToHyphenAux p true rest
      else '-' :: runsToHyphenAux p true rest
    else c :: runsToHyphenAux p false rest

def runsToHyphen (p : Char → Bool) (l : List Char) : List Char :=
  runsToHyphenAux p false l

def trimHyphens (l : List Char) : List Char :=
  ((l.dropWhile (fun c => c = '-')).reverse.dropWhile (fun c => c = '-')).reverse

def cleanUsernameList (l : List Char) : List Char :=
  let s := jsTrimList l
  let s := s.map Char.toLower
  let s := runsToHyphen isJsWhitespace s
  let s := s.filter isSlugChar
  let s := runsToHyphen (fun c => c = '-') s
  let s := trimHyphens s
  s.take 50

def cleanUsername (username : String) : String :=
  if cleanUsernameList username.data = [] then "unknown-user"
  else ⟨cleanUsernameList username.data⟩

/-- The fingerprint string: user-agent, language, `WxH` screen size,
hardware concurrency and time zone joined with `|`, each falsy component
replaced by `"unknown"` (`hardwareConcurrency` of `0` or `undefined` is
falsy). -/
def fingerprintString (env : Env) : String :=
  String.intercalate "|"
    [ jsOrUnknown env.userAgent,
      jsOrUnknown env.language,
      Nat.repr env.screenW ++ "x" ++ Nat.repr env.screenH,
      (match env.hardwareConcurrency with
       | some n => if n = 0 then "unknown" else Nat.repr n
       | none => "unknown"),
      jsOrUnknown env.timeZone ]

/-- Coercion to a signed 32-bit integer, as performed by the JavaScript
bitwise operators in `hash = (hash << 5) - hash + char; hash = hash & hash`. -/
def toInt32 (x : Int) : Int :=
  let r := x % 4294967296
  if r < 2147483648 then r else r - 4294967296

def hashStep (h : Int) (c : Char) : Int :=
  toInt32 (toInt32 (h * 32) - h + (c.toNat : Int))

def fingerprintHash (s : String) : Int :=
  s.data.foldl hashStep 0

/-- The anonymous visitor id: `Math.abs(hash).toString(36)`. -/
def fingerprintId (env : Env) : String :=
  natToBase36 (fingerprintHash (fingerprintString env)).natAbs

/-- The anonymous branch of `generateVisitorId`: reuse the stored
`visitor_id` only when it is truthy, contains no `"@"` and is not
`"unknown-user"`; otherwise compute, persist and return the fingerprint
id. -/
def anonVisitorId (env : Env) (now : Int) (store : DurableStore) :
    String × DurableStore :=
  let reuse :=
    match getStoredVisitorId now store with
    | some s =>
      if s ≠ "" ∧ ¬strIncludes s "@" ∧ s ≠ "unknown-user" then some s else none
    | none => none
  match reuse with
  | some s => (s, store)
  | none =>
    let visitorId := fingerprintId env
    (visitorId, setStoredVisitorId now visitorId store)

/-- `username && username.trim() !== ""`. -/
def isIdentified (username : Option String) : Bool :=
  match username with
  | some u => jsTrim u ≠ ""
  | none => false

/-- `generateVisitorId` from `visitor-tracker.tsx`. -/
def generateVisitorId (env : Env) (now : Int) (username : Option String)
    (store : DurableStore) : String × DurableStore :=
  match username with
  | some u =>
    if jsTrim u ≠ "" then
      let c := cleanUsername u
      (c, setStoredVisitorId now c store)
    else anonVisitorId env now store
  | none => anonVisitorId env now store

/-! ## Client data (`getClientData`) -/

structure ClientData where
  isNewVisitor : Bool
  screenResolution : String
  viewportSize : String
  connectionType : String
  clientTimeZone : String
  sessionStartTime : String
  isNewSession : Bool
deriving Repr, DecidableEq

structure ClientOut where
  data : ClientData
  durable : DurableStore
  session : SessionStore
deriving Repr, DecidableEq

/-- `getClientData` from `visitor-tracker.tsx` (browser branch).  The
ISO rendering of `new Date()` is the explicit `nowIso` parameter. -/
def getClientData (env : Env) (now : Int) (nowIso : String)
    (username : Option String) (bytes : List Nat)
    (durable : DurableStore) (session : SessionStore) : ClientOut :=
  let vr := generateVisitorId env now username durable
  let visitorId := vr.1
  let durable := vr.2
  let sr := generateSessionId now bytes session
  let sessionId := sr.1.1
  let isNewSession := sr.1.2
  let session := sr.2
  let nv :
      Bool × DurableStore × SessionStore :=
    if isIdentified username then (false, durable, session)
    else
      let visitorCacheKey := "isNewVisitor_" ++ visitorId
      match session.newVisitorCache.lookup visitorCacheKey with
      | none =>
        let visitorExists := hasVisitor now durable visitorId
        let isNewVisitor := !visitorExists
        let session :=
          { session with
            newVisitorCache :=
              insertAssoc visitorCacheKey isNewVisitor session.newVisitorCache }
        let durable :=
          if isNewVisitor then setVisitor now visitorId durable else durable
        (isNewVisitor, durable, session)
      | some cached => (cached, durable, session)
  let isNewVisitor := nv.1
  let durable := nv.2.1
  let session := nv.2.2
  let startKey := "session_start_" ++ sessionId
  let st :
      String × SessionStore :=
    match session.sessionStart.lookup startKey with
    | some s =>
      if s ≠ "" then (s, session)
      else (nowIso, { session with sessionStart := insertAssoc startKey nowIso session.sessionStart })
    | none =>
      (nowIso, { session with sessionStart := insertAssoc startKey nowIso session.sessionStart })
  let sessionStartTime := st.1
  let session := st.2
  let isMobile :=
    strIncludes env.userAgent "Mobile" || strIncludes env.userAgent "Android" ||
    strIncludes env.userAgent "iPhone" || strIncludes env.userAgent "iPad"
  { data :=
      { isNewVisitor := isNewVisitor
        screenResolution := Nat.repr env.screenW ++ "x" ++ Nat.repr env.screenH
        viewportSize := Nat.repr env.innerW ++ "x" ++ Nat.repr env.innerH
        connectionType := if isMobile then "mobile" else "desktop"
        clientTimeZone := env.timeZone
        sessionStartTime := sessionStartTime
        isNewSession := isNewSession }
    durable := durable
    session := session }

/-! ## The heartbeat engine

`VisitorTracker` keeps its loop state in React refs: the pending
`setTimeout` handle (`heartbeatInterval`), `heartbeatEnabled`,
`currentInterval` (starting at 15s) and `isActive`.  We model the refs
together with the `sessionStorage` contents and the environment's
`document.hidden` flag as one state, and the event-loop callbacks as a
labelled step function.  `pendingTimers` is the list of in-flight
timers (each recorded with the interval it was scheduled with): the real
handle is at most one, and keeping a list lets that be proved rather
than assumed.  Emitted events are recorded together with the value of
`document.hidden` at emission time.

Labels are the event-loop tasks that can run: a timer callback firing at
wall-clock time `now` (`tick`), the activity handler (`activity`), the
environment flipping `document.hidden` (`envHide`/`envShow`), the
`visibilitychange` handler task (`visHandler`) and the mount effect
(`mount`).  The flip of `document.hidden` and the handler that reacts to
it are distinct event-loop steps, as in the DOM: the `visibilitychange`
handler runs as a queued task, and other tasks may run in between. -/

structure EngineState where
  store : SessionStore
  heartbeatEnabled : Bool
  pendingTimers : List Int
  currentInterval : Int
  isActive : Bool
  hidden : Bool
deriving Repr, DecidableEq

inductive Ev
  | session_start
  | pageview
  | heartbeat
deriving Repr, DecidableEq

/-- `scheduleNextHeartbeat` up to the body of the timer callback: do
nothing when heartbeats are disabled or a timer is already pending,
otherwise register a timer with the current interval. -/
def scheduleNextHeartbeat (s : EngineState) : EngineState :=
  if !s.heartbeatEnabled then s
  else if !s.pendingTimers.isEmpty then s
  else { s with pendingTimers := [s.currentInterval] }

def intervals : List Int := [15000, 60000, 5 * 60 * 1000, 15 * 60 * 1000]

/-- The interval progression inside the timer callback:
`indexOf` the current interval in the fixed sequence and step to the
next entry when one exists (absent values — `indexOf` is `-1` in the
source, `intervals.length` here — leave the interval unchanged, as does
the last entry). -/
def advanceInterval (cur : Int) : Int :=
  let currentIndex := intervals.indexOf cur
  if currentIndex < intervals.length - 1 then intervals.getD (currentIndex + 1) cur
  else cur

def timeSinceActivity (s : EngineState) (now : Int) : Int :=
  match s.store.session_data with
  | some sd => now - sd.last_activity
  | none => 0

/-- The body of the `setTimeout` callback registered by
`scheduleNextHeartbeat`: clear the handle, re-derive the idle time, hard
cutoff at 30 minutes, emit a heartbeat below the 2-minute threshold,
advance the interval and reschedule.  The `Bool` result records whether
a heartbeat event was sent. -/
def heartbeatTick (s : EngineState) (now : Int) : EngineState × Bool :=
  let s := { s with pendingTimers := [] }
  let t := timeSinceActivity s now
  if t ≥ SESSION_TIMEOUT then
    ({ s with heartbeatEnabled := false }, false)
  else
    let emit := t < inactivityThreshold
    let s := { s with currentInterval := advanceInterval s.currentInterval }
    (scheduleNextHeartbeat s, emit)

/-- `updateLastActivity`: rewrite `last_activity` of the persisted
session, when one exists. -/
def updateLastActivity (s : EngineState) (now : Int) : EngineState :=
  match s.store.session_data with
  | some sd =>
    { s with store :=
        { s.store with session_data := some { sd with last_activity := now } } }
  | none => s

/-- `handleActivity`: mark active; when the existing session has passed
the 30-minute timeout, run `generateSessionId` (which mints and persists
a new session here), emit `session_start` and `pageview` if it was new,
and re-enable heartbeats; then persist `last_activity = now`, reset the
interval to 15s and reschedule if enabled.  A missing session reads as
`Infinity` idle time in the source, hence counts as timed out. -/
def handleActivity (s : EngineState) (now : Int) (bytes : List Nat) :
    EngineState × List Ev :=
  let s := { s with isActive := true }
  let timedOut : Bool :=
    match s.store.session_data with
    | some sd => decide (now - sd.last_activity > SESSION_TIMEOUT)
    | none => true
  let r :=
    if timedOut then
      let g := generateSessionId now bytes s.store
      let s := { s with store := g.2, heartbeatEnabled := true }
      (s, if g.1.2 then [Ev.session_start, Ev.pageview] else [])
    else (s, [])
  let s := updateLastActivity r.1 now
  let s := { s with currentInterval := 15000 }
  let s := if s.heartbeatEnabled then scheduleNextHeartbeat s else s
  (s, r.2)

/-- `handleVisibilityChange`: on hide, disable heartbeats and clear the
pending timer; on show, re-enable, mark active and reschedule. -/
def handleVisibilityChange (s : EngineState) : EngineState :=
  if s.hidden then
    { s with heartbeatEnabled := false, pendingTimers := [] }
  else
    scheduleNextHeartbeat { s with heartbeatEnabled := true, isActive := true }

inductive Lbl
  | tick (now : Int)
  | activity (now : Int) (bytes : List Nat)
  | envHide
  | envShow
  | visHandler
  | mount
deriving Repr, DecidableEq

/-- One event-loop step.  A `tick` with no pending timer cannot occur
and is a no-op; `mount` is the effect body restricted to the loop state:
clear any existing timer, then start the heartbeat system.  Events are
paired with `document.hidden` at the moment they are sent. -/
def step (s : EngineState) (l : Lbl) : EngineState × List (Ev × Bool) :=
  match l with
  | .tick now =>
    if s.pendingTimers.isEmpty then (s, [])
    else
      let r := heartbeatTick s now
      (r.1, if r.2 then [(Ev.heartbeat, s.hidden)] else [])
  | .activity now bytes =>
    let r := handleActivity s now bytes
    (r.1, r.2.map (fun e => (e, s.hidden)))
  | .envHide => ({ s with hidden := true }, [])
  | .envShow => ({ s with hidden := false }, [])
  | .visHandler => (handleVisibilityChange s, [])
  | .mount => (scheduleNextHeartbeat { s with pendingTimers := [] }, [])

def run (s : EngineState) : List Lbl → EngineState × List (Ev × Bool)
  | [] => (s, [])
  | l :: ls =>
    let r := step s l
    let r2 := run r.1 ls
    (r2.1, r.2 ++ r2.2)

/-- The tracker state right after mount on a fresh page load with a live
session: enabled, no timer yet, 15s interval, active, visible. -/
def engineInit (sid : String) (t0 : Int) : EngineState :=
  { store := ⟨some ⟨sid, t0⟩, [], []⟩
    heartbeatEnabled := true
    pendingTimers := []
    currentInterval := 15000
    isActive := true
    hidden := false }

/-- Labels that neither run the activity handler nor the visibility
handler — the two paths that can set `heartbeatEnabled` back to `true`. -/
def isPassiveLbl : Lbl → Prop
  | .activity _ _ => False
  | .visHandler => False
  | _ => True

instance (l : Lbl) : Decidable (isPassiveLbl l) := by
  cases l <;> simp [isPassiveLbl] <;> infer_instance

/-! ## Helper lemmas -/

theorem generateSessionId_of_valid (now : Int) (bytes : List Nat)
    (store : SessionStore) (sd : SessionData) (hsd : store.session_data = some sd)
    (hid : sd.session_id ≠ "") (hvalid : now - sd.last_activity < SESSION_TIMEOUT) :
    generateSessionId now bytes store = ((sd.session_id, false), store) := by
  simp [generateSessionId, hsd, hid, hvalid]

theorem generateSessionId_of_expired (now : Int) (bytes : List Nat)
    (store : SessionStore) (sd : SessionData) (hsd : store.session_data = some sd)
    (hid : sd.session_id ≠ "") (hexp : SESSION_TIMEOUT ≤ now - sd.last_activity) :
    generateSessionId now bytes store =
      ((generateLightweightId now bytes, true),
        { store with session_data := some ⟨generateLightweightId now bytes, now⟩ }) := by
  simp [generateSessionId, hsd, hid, not_lt.mpr hexp, mintSession]

/-! ## Claims about session resolution -/

/-- C1 (amended): if a persisted session exists whose age
`now - last_activity` is strictly less than 30 minutes, `generateSessionId`
returns that session's id unchanged with `isNewSession = false`; otherwise
it mints the short (at most 8 characters) identifier determined by the
current time's base-36 tail and the random bytes, persists
`{session_id, last_activity: now}`, and returns `isNewSession = true`.
The minted id is not compared with the prior one, so it differs from the
prior id exactly when the time-and-randomness rendering does not collide
with it (the original claim's unconditional "id different from the prior
one" fails on such a collision, see the counterexample). -/
theorem generateSessionId_spec (now : Int) (bytes : List Nat)
    (store : SessionStore) (sd : SessionData) (hsd : store.session_data = some sd)
    (hid : sd.session_id ≠ "") :
    (now - sd.last_activity < SESSION_TIMEOUT →
      generateSessionId now bytes store = ((sd.session_id, false), store)) ∧
    (SESSION_TIMEOUT ≤ now - sd.last_activity →
      generateSessionId now bytes store =
        ((generateLightweightId now bytes, true),
          { store with session_data := some ⟨generateLightweightId now bytes, now⟩ })) ∧
    (generateLightweightId now bytes).length ≤ 8 := by
  refine ⟨fun h => generateSessionId_of_valid now bytes store sd hsd hid h,
    fun h => generateSessionId_of_expired now bytes store sd hsd hid h, ?_⟩
  show (generateLightweightId now bytes).data.length ≤ 8
  simp [generateLightweightId]

/-- Witness for `generateSessionId_spec`, at the claim's 29-minute
boundary (`last_activity = now − 29min`: the existing id is returned
unchanged) and at a 31-minute age (a fresh session is persisted). -/
theorem generateSessionId_spec_witness :
    (generateSessionId 1679616000000 [10, 10, 10, 10]
        ⟨some ⟨"sess0001", 1679614260000⟩, [], []⟩ =
      (("sess0001", false), ⟨some ⟨"sess0001", 1679614260000⟩, [], []⟩)) ∧
    (generateSessionId 1679616000000 [1, 2, 3, 4]
        ⟨some ⟨"sess0001", 1679614140000⟩, [], []⟩ =
      ((generateLightweightId 1679616000000 [1, 2, 3, 4], true),
        ⟨some ⟨generateLightweightId 1679616000000 [1, 2, 3, 4], 1679616000000⟩, [], []⟩)) := by
  constructor
  · exact (generateSessionId_spec 1679616000000 [10, 10, 10, 10] _
      ⟨"sess0001", 1679614260000⟩ rfl (by decide)).1 (by decide)
  · exact (generateSessionId_spec 1679616000000 [1, 2, 3, 4] _
      ⟨"sess0001", 1679614140000⟩ rfl (by decide)).2.1 (by decide)

/-- C1 counterexample: with a prior session id `"0000aaaa"` of age exactly
30 minutes, at `now = 1679616000000` (whose base-36 rendering ends in
`"0000"`) and random bytes `[10,10,10,10]` (each rendering to `"a"`), the
minted identifier is again `"0000aaaa"`: the call returns
`isNewSession = true` but an id equal to the prior one, refuting the
claim's "an id different from the prior one". -/
theorem generateSessionId_new_id_can_equal_prior :
    SESSION_TIMEOUT ≤ (1679616000000 : Int) - 1679614200000 ∧
    (generateSessionId 1679616000000 [10, 10, 10, 10]
        ⟨some ⟨"0000aaaa", 1679614200000⟩, [], []⟩).1 = ("0000aaaa", true) := by
  decide

/-- C2: when the persisted session is still valid (age strictly below 30
minutes), `generateSessionId` is a side-effect-free read: the whole
session store — in particular `session_data` and its `last_activity` —
is returned unchanged, and a repeated call on the resulting store (at any
time at which the session is still valid) returns the same
`(sessionId, isNewSession = false)` result. -/
theorem generateSessionId_valid_idempotent (now now2 : Int)
    (bytes bytes2 : List Nat) (store : SessionStore) (sd : SessionData)
    (hsd : store.session_data = some sd) (hid : sd.session_id ≠ "")
    (h1 : now - sd.last_activity < SESSION_TIMEOUT)
    (h2 : now2 - sd.last_activity < SESSION_TIMEOUT) :
    generateSessionId now bytes store = ((sd.session_id, false), store) ∧
    generateSessionId now2 bytes2 ((generateSessionId now bytes store).2) =
      ((sd.session_id, false), store) := by
  have e1 := generateSessionId_of_valid now bytes store sd hsd hid h1
  refine ⟨e1, ?_⟩
  rw [e1]
  exact generateSessionId_of_valid now2 bytes2 store sd hsd hid h2

/-- Witness for `generateSessionId_valid_idempotent` at a 5-minute-old
session read twice, one minute apart. -/
theorem generateSessionId_valid_idempotent_witness :
    generateSessionId 1679616000000 [10, 10, 10, 10]
        ⟨some ⟨"sess0001", 1679615700000⟩, [], []⟩ =
      (("sess0001", false), ⟨some ⟨"sess0001", 1679615700000⟩, [], []⟩) ∧
    generateSessionId 1679616060000 [7, 7, 7, 7]
        ((generateSessionId 1679616000000 [10, 10, 10, 10]
          ⟨some ⟨"sess0001", 1679615700000⟩, [], []⟩).2) =
      (("sess0001", false), ⟨some ⟨"sess0001", 1679615700000⟩, [], []⟩) :=
  generateSessionId_valid_idempotent 1679616000000 1679616060000 [10, 10, 10, 10]
    [7, 7, 7, 7] _ ⟨"sess0001", 1679615700000⟩ rfl (by decide) (by decide) (by decide)

/-! ## Helper lemmas about the engine -/

theorem scheduleNextHeartbeat_noop (s : EngineState)
    (h : s.heartbeatEnabled = false ∨ s.pendingTimers ≠ []) :
    scheduleNextHeartbeat s = s := by
  rcases h with h | h
  · simp [scheduleNextHeartbeat, h]
  · simp [scheduleNextHeartbeat, h]

theorem scheduleNextHeartbeat_enabled (s : EngineState) :
    (scheduleNextHeartbeat s).heartbeatEnabled = s.heartbeatEnabled := by
  simp only [scheduleNextHeartbeat]
  split
  · rfl
  · split <;> rfl

theorem scheduleNextHeartbeat_interval (s : EngineState) :
    (scheduleNextHeartbeat s).currentInterval = s.currentInterval := by
  simp only [scheduleNextHeartbeat]
  split
  · rfl
  · split <;> rfl

theorem scheduleNextHeartbeat_store (s : EngineState) :
    (scheduleNextHeartbeat s).store = s.store := by
  simp only [scheduleNextHeartbeat]
  split
  · rfl
  · split <;> rfl

theorem scheduleNextHeartbeat_timerBound (s : EngineState)
    (h : s.pendingTimers.length ≤ 1) :
    (scheduleNextHeartbeat s).pendingTimers.length ≤ 1 := by
  simp only [scheduleNextHeartbeat]
  split
  · exact h
  · split
    · exact h
    · simp

/-- A heartbeat tick never writes the session store: heartbeats cannot
refresh `last_activity` and so cannot keep a session alive. -/
theorem heartbeatTick_store (s : EngineState) (now : Int) :
    (heartbeatTick s now).1.store = s.store := by
  simp only [heartbeatTick]
  split
  · rfl
  · exact scheduleNextHeartbeat_store _

/-- From a state with heartbeats disabled and no pending timer, any run
of steps that contains neither the activity handler nor the visibility
handler emits nothing and leaves heartbeats disabled with no pending
timer. -/
theorem run_disabled_quiet (lbls : List Lbl) :
    ∀ s : EngineState, s.heartbeatEnabled = false → s.pendingTimers = [] →
      (∀ l ∈ lbls, isPassiveLbl l) →
      (run s lbls).2 = [] ∧ (run s lbls).1.heartbeatEnabled = false ∧
        (run s lbls).1.pendingTimers = [] := by
  induction lbls with
  | nil => intro s hen hpend _; exact ⟨rfl, hen, hpend⟩
  | cons l ls ih =>
    intro s hen hpend hp
    have hl : isPassiveLbl l := hp l (by simp)
    have hls : ∀ l' ∈ ls, isPassiveLbl l' := fun l' h => hp l' (by simp [h])
    cases l with
    | tick now =>
      have hstep : step s (.tick now) = (s, []) := by
        simp [step, hpend]
      simp only [run, hstep]
      simpa using ih s hen hpend hls
    | activity now bytes => simp [isPassiveLbl] at hl
    | visHandler => simp [isPassiveLbl] at hl
    | envHide =>
      have hstep : step s .envHide = ({ s with hidden := true }, []) := rfl
      simp only [run, hstep]
      simpa using ih { s with hidden := true } hen hpend hls
    | envShow =>
      have hstep : step s .envShow = ({ s with hidden := false }, []) := rfl
      simp only [run, hstep]
      simpa using ih { s with hidden := false } hen hpend hls
    | mount =>
      have hstep : step s .mount = ({ s with pendingTimers := [] }, []) := by
        simp only [step]
        rw [scheduleNextHeartbeat_noop _ (Or.inl (by simpa using hen))]
      simp only [run, hstep]
      simpa using ih { s with pendingTimers := [] } hen rfl hls

theorem heartbeatTick_cutoff (s : EngineState) (now : Int)
    (hcut : SESSION_TIMEOUT ≤ timeSinceActivity s now) :
    heartbeatTick s now =
      ({ s with pendingTimers := [], heartbeatEnabled := false }, false) := by
  have ht : timeSinceActivity { s with pendingTimers := ([] : List Int) } now =
      timeSinceActivity s now := rfl
  simp only [heartbeatTick, ht]
  rw [if_pos hcut]

theorem heartbeatTick_live (s : EngineState) (now : Int)
    (hlive : timeSinceActivity s now < SESSION_TIMEOUT)
    (hen : s.heartbeatEnabled = true) :
    heartbeatTick s now =
      ({ s with pendingTimers := [advanceInterval s.currentInterval],
                currentInterval := advanceInterval s.currentInterval },
        decide (timeSinceActivity s now < inactivityThreshold)) := by
  have ht : timeSinceActivity { s with pendingTimers := ([] : List Int) } now =
      timeSinceActivity s now := rfl
  simp only [heartbeatTick, ht]
  rw [if_neg (not_le.mpr hlive)]
  simp [scheduleNextHeartbeat, hen]

theorem heartbeatTick_timerBound (s : EngineState) (now : Int) :
    ((heartbeatTick s now).1).pendingTimers.length ≤ 1 := by
  simp only [heartbeatTick]
  split
  · simp
  · exact scheduleNextHeartbeat_timerBound _ (by simp)

theorem heartbeatTick_interval (s : EngineState) (now : Int) :
    ((heartbeatTick s now).1).currentInterval = s.currentInterval ∨
    ((heartbeatTick s now).1).currentInterval = advanceInterval s.currentInterval := by
  simp only [heartbeatTick]
  split
  · left; rfl
  · right
    rw [scheduleNextHeartbeat_interval]

theorem updateLastActivity_pending (s : EngineState) (now : Int) :
    (updateLastActivity s now).pendingTimers = s.pendingTimers := by
  simp only [updateLastActivity]
  split <;> rfl

theorem updateLastActivity_enabled (s : EngineState) (now : Int) :
    (updateLastActivity s now).heartbeatEnabled = s.heartbeatEnabled := by
  simp only [updateLastActivity]
  split <;> rfl

theorem handleActivity_interval (s : EngineState) (now : Int) (bytes : List Nat) :
    ((handleActivity s now bytes).1).currentInterval = 15000 := by
  simp only [handleActivity]
  repeat' split
  all_goals first
    | rw [scheduleNextHeartbeat_interval]
    | rfl

theorem handleActivity_timerBound (s : EngineState) (now : Int) (bytes : List Nat)
    (h : s.pendingTimers.length ≤ 1) :
    ((handleActivity s now bytes).1).pendingTimers.length ≤ 1 := by
  simp only [handleActivity]
  repeat' split
  all_goals first
    | exact scheduleNextHeartbeat_timerBound _
        (by simpa [updateLastActivity_pending] using h)
    | simpa [updateLastActivity_pending] using h

theorem handleVisibilityChange_timerBound (s : EngineState)
    (h : s.pendingTimers.length ≤ 1) :
    (handleVisibilityChange s).pendingTimers.length ≤ 1 := by
  simp only [handleVisibilityChange]
  split
  · simp
  · exact scheduleNextHeartbeat_timerBound _ (by simpa using h)

theorem step_timerBound (s : EngineState) (l : Lbl)
    (h : s.pendingTimers.length ≤ 1) :
    ((step s l).1).pendingTimers.length ≤ 1 := by
  cases l with
  | tick now =>
    by_cases hp : s.pendingTimers.isEmpty
    · simpa [step, hp] using h
    · simp only [step, hp, Bool.false_eq_true, if_false]
      exact heartbeatTick_timerBound s now
  | activity now bytes => exact handleActivity_timerBound s now bytes h
  | envHide => simpa [step] using h
  | envShow => simpa [step] using h
  | visHandler => exact handleVisibilityChange_timerBound s h
  | mount =>
    simp only [step]
    exact scheduleNextHeartbeat_timerBound _ (by simp)

theorem run_timerBound (lbls : List Lbl) :
    ∀ s : EngineState, s.pendingTimers.length ≤ 1 →
      ((run s lbls).1).pendingTimers.length ≤ 1 := by
  induction lbls with
  | nil => intro s h; exact h
  | cons l ls ih =>
    intro s h
    simp only [run]
    exact ih _ (step_timerBound s l h)

/-! ## Claims about the heartbeat loop -/

/-- C3: a heartbeat timer firing with `time_since_activity` of at least
30 minutes disables heartbeats, schedules no further timer and emits
nothing; the state is terminal: any continuation that contains neither an
activity-handler step nor a visibility-handler step (the only two paths
that re-enable heartbeats) emits no event at all — in particular no
heartbeat — and leaves heartbeats disabled with no timer pending.
Moreover the tick leaves the session store untouched, so a heartbeat can
never refresh `last_activity` and keep a timed-out session alive. -/
theorem hardTimeout_terminal (s : EngineState) (now : Int) (lbls : List Lbl)
    (hpend : s.pendingTimers ≠ [])
    (hcut : SESSION_TIMEOUT ≤ timeSinceActivity s now)
    (hpassive : ∀ l ∈ lbls, isPassiveLbl l) :
    step s (.tick now) =
      ({ s with pendingTimers := [], heartbeatEnabled := false }, []) ∧
    (run { s with pendingTimers := [], heartbeatEnabled := false } lbls).2 = [] ∧
    (run { s with pendingTimers := [], heartbeatEnabled := false } lbls).1.heartbeatEnabled
      = false ∧
    (run { s with pendingTimers := [], heartbeatEnabled := false } lbls).1.pendingTimers
      = [] ∧
    (heartbeatTick s now).1.store = s.store := by
  have hemp : s.pendingTimers.isEmpty = false := by
    cases h : s.pendingTimers with
    | nil => exact absurd h hpend
    | cons a l => rfl
  have hq := run_disabled_quiet lbls
    { s with pendingTimers := [], heartbeatEnabled := false } rfl rfl hpassive
  refine ⟨?_, hq.1, hq.2.1, hq.2.2, heartbeatTick_store s now⟩
  simp [step, hemp, heartbeatTick_cutoff s now hcut]

/-- Witness for `hardTimeout_terminal`, enacting the spec's scenario: a
session created at `t = 0`, activity at `t = 5min` (which moves
`last_activity` to `5min`), then a timer firing at `t = 35min` finds an
idle time of exactly 30 minutes and hits the hard cutoff; later passive
steps (a further tick, hiding, a remount) emit nothing. -/
theorem hardTimeout_terminal_witness :
    step ((run (engineInit "sess0001" 0) [Lbl.mount, Lbl.activity 300000 []]).1)
        (.tick 2100000) =
      ({ (run (engineInit "sess0001" 0) [Lbl.mount, Lbl.activity 300000 []]).1 with
          pendingTimers := [], heartbeatEnabled := false }, []) ∧
    (run { (run (engineInit "sess0001" 0) [Lbl.mount, Lbl.activity 300000 []]).1 with
        pendingTimers := [], heartbeatEnabled := false }
      [Lbl.tick 2400000, Lbl.envHide, Lbl.mount]).2 = [] ∧
    (run { (run (engineInit "sess0001" 0) [Lbl.mount, Lbl.activity 300000 []]).1 with
        pendingTimers := [], heartbeatEnabled := false }
      [Lbl.tick 2400000, Lbl.envHide, Lbl.mount]).1.heartbeatEnabled = false ∧
    (run { (run (engineInit "sess0001" 0) [Lbl.mount, Lbl.activity 300000 []]).1 with
        pendingTimers := [], heartbeatEnabled := false }
      [Lbl.tick 2400000, Lbl.envHide, Lbl.mount]).1.pendingTimers = [] ∧
    (heartbeatTick ((run (engineInit "sess0001" 0)
        [Lbl.mount, Lbl.activity 300000 []]).1) 2100000).1.store =
      ((run (engineInit "sess0001" 0) [Lbl.mount, Lbl.activity 300000 []]).1).store :=
  hardTimeout_terminal _ 2100000 [Lbl.tick 2400000, Lbl.envHide, Lbl.mount]
    (by decide) (by decide) (by decide)

/-- C7: `scheduleNextHeartbeat` is a no-op whenever heartbeats are
disabled or a timer is already pending, and consequently, from any state
with at most one in-flight timer, every interleaving of mount, activity,
visibility and tick steps keeps at most one timer in flight at every
moment (the bound is preserved by each single step and by every run). -/
theorem schedule_reentrancy_guard (s s2 : EngineState) (l : Lbl) (lbls : List Lbl)
    (hnoop : s.heartbeatEnabled = false ∨ s.pendingTimers ≠ [])
    (hbound : s2.pendingTimers.length ≤ 1) :
    scheduleNextHeartbeat s = s ∧
    ((step s2 l).1).pendingTimers.length ≤ 1 ∧
    ((run s2 lbls).1).pendingTimers.length ≤ 1 :=
  ⟨scheduleNextHeartbeat_noop s hnoop, step_timerBound s2 l hbound,
    run_timerBound lbls s2 hbound⟩

/-- Witness for `schedule_reentrancy_guard`: a state with a pending
timer is left unchanged by a second schedule call, and a run mixing all
trigger kinds keeps the timer count at most one. -/
theorem schedule_reentrancy_guard_witness :
    scheduleNextHeartbeat
        { store := ⟨some ⟨"sess0001", 0⟩, [], []⟩, heartbeatEnabled := true,
          pendingTimers := [15000], currentInterval := 15000,
          isActive := true, hidden := false } =
      { store := ⟨some ⟨"sess0001", 0⟩, [], []⟩, heartbeatEnabled := true,
        pendingTimers := [15000], currentInterval := 15000,
        isActive := true, hidden := false } ∧
    ((step (engineInit "sess0001" 0) Lbl.mount).1).pendingTimers.length ≤ 1 ∧
    ((run (engineInit "sess0001" 0)
        [Lbl.mount, Lbl.activity 1000 [1, 2, 3, 4], Lbl.tick 15000, Lbl.envHide,
          Lbl.visHandler, Lbl.envShow, Lbl.visHandler, Lbl.mount,
          Lbl.tick 30000]).1).pendingTimers.length ≤ 1 :=
  schedule_reentrancy_guard _ _ Lbl.mount _ (Or.inr (by decide)) (by decide)

/-- C4 counterexample, on a reachable trace: mount at `t = 0` schedules
the 15s timer; ticks at `t = 15s` and `t = 75s` advance the interval to
5 minutes; the next fire at `t = 375s` finds an idle time of 375s —
above the 2-minute threshold and below the 30-minute cutoff.  The claim
says this fire marks the engine inactive and schedules no next timer; in
fact `isActive` stays `true` (the timer callback never writes it) and a
next timer is scheduled with the advanced 15-minute interval. -/
theorem softInactivity_not_stop_counterexample :
    inactivityThreshold <
      timeSinceActivity
        ((run (engineInit "sess0001" 0) [Lbl.mount, Lbl.tick 15000, Lbl.tick 75000]).1)
        375000 ∧
    timeSinceActivity
        ((run (engineInit "sess0001" 0) [Lbl.mount, Lbl.tick 15000, Lbl.tick 75000]).1)
        375000 < SESSION_TIMEOUT ∧
    (step ((run (engineInit "sess0001" 0) [Lbl.mount, Lbl.tick 15000, Lbl.tick 75000]).1)
        (.tick 375000)).1.isActive = true ∧
    (step ((run (engineInit "sess0001" 0) [Lbl.mount, Lbl.tick 15000, Lbl.tick 75000]).1)
        (.tick 375000)).1.pendingTimers = [900000] := by
  decide

/-- C4 (amended): on every heartbeat timer fire where the time since
last activity is at least 2 minutes and below the 30-minute hard
timeout, the engine emits no heartbeat event, but — unlike the claim —
it does not mark itself inactive and does not stop rescheduling: it
leaves `isActive` and `heartbeatEnabled` unchanged (both remain as they
were, in particular enabled), advances the cadence interval one step
when a larger step remains, and schedules the next timer with that
interval.  (The claimed mark-inactive-and-stop behaviour exists only in
earlier revisions of the file, not in the one exported by the package.) -/
theorem softInactivity_tick_spec (s : EngineState) (now : Int)
    (hpend : s.pendingTimers ≠ []) (hen : s.heartbeatEnabled = true)
    (h1 : inactivityThreshold ≤ timeSinceActivity s now)
    (h2 : timeSinceActivity s now < SESSION_TIMEOUT) :
    step s (.tick now) =
      ({ s with pendingTimers := [advanceInterval s.currentInterval],
                currentInterval := advanceInterval s.currentInterval }, []) := by
  have hemp : s.pendingTimers.isEmpty = false := by
    cases h : s.pendingTimers with
    | nil => exact absurd h hpend
    | cons a l => rfl
  simp [step, hemp, heartbeatTick_live s now h2 hen, not_lt.mpr h1]

/-- Witness for `softInactivity_tick_spec`: a fire at 5 minutes of idle
time on a live, enabled state with a pending 5-minute timer. -/
theorem softInactivity_tick_spec_witness :
    step
        { store := ⟨some ⟨"sess0001", 0⟩, [], []⟩, heartbeatEnabled := true,
          pendingTimers := [300000], currentInterval := 300000,
          isActive := true, hidden := false }
        (.tick 300000) =
      ({ store := ⟨some ⟨"sess0001", 0⟩, [], []⟩, heartbeatEnabled := true,
          pendingTimers := [900000], currentInterval := 900000,
          isActive := true, hidden := false }, []) := by
  have h := softInactivity_tick_spec
    { store := ⟨some ⟨"sess0001", 0⟩, [], []⟩, heartbeatEnabled := true,
      pendingTimers := [300000], currentInterval := 300000,
      isActive := true, hidden := false }
    300000 (by decide) (by decide) (by decide) (by decide)
  simpa using h

/-- C5 counterexample, on a reachable trace: mount at `t = 0` schedules
the 15s timer; the tab then becomes hidden, but the timer task runs
before the queued `visibilitychange` handler task (a legal event-loop
interleaving, and the reason later revisions added a `document.hidden`
check inside the callback — the callback in this revision has none).
The fire at `t = 15s` finds 15s of idle time and transmits a heartbeat
while `document.hidden` is `true`, refuting "no heartbeat event is
transmitted while the tab is hidden" over all reachable executions. -/
theorem heartbeat_while_hidden_counterexample :
    (run (engineInit "sess0001" 0) [Lbl.mount, Lbl.envHide]).1.hidden = true ∧
    (run (engineInit "sess0001" 0) [Lbl.mount, Lbl.envHide]).1.pendingTimers = [15000] ∧
    (run (engineInit "sess0001" 0) [Lbl.mount, Lbl.envHide, Lbl.tick 15000]).2 =
      [(Ev.heartbeat, true)] := by
  decide

/-- C5 (amended): once the `visibilitychange` handler has processed the
hide it disables heartbeats and cancels the pending timer, and from that
point — as long as neither the activity handler nor the visibility
handler runs again — no event is emitted at all, so no heartbeat is
transmitted while hidden.  The original claim's further assertion that a
timer callback running while the document is hidden does not emit fails:
the callback does not consult `document.hidden`, so a timer task that
runs between the hide and the handler task does emit (see the
counterexample). -/
theorem visibility_hide_suppresses_after_handler (s : EngineState) (lbls : List Lbl)
    (hhid : s.hidden = true) (hpassive : ∀ l ∈ lbls, isPassiveLbl l) :
    handleVisibilityChange s =
      { s with heartbeatEnabled := false, pendingTimers := [] } ∧
    (run (handleVisibilityChange s) lbls).2 = [] := by
  have h1 : handleVisibilityChange s =
      { s with heartbeatEnabled := false, pendingTimers := [] } := by
    simp [handleVisibilityChange, hhid]
  refine ⟨h1, ?_⟩
  rw [h1]
  exact (run_disabled_quiet lbls _ rfl rfl hpassive).1

/-- Witness for `visibility_hide_suppresses_after_handler`: the handler
runs on a hidden tab with a pending timer; afterwards ticks, visibility
flips and a remount emit nothing. -/
theorem visibility_hide_suppresses_after_handler_witness :
    handleVisibilityChange
        { store := ⟨some ⟨"sess0001", 0⟩, [], []⟩, heartbeatEnabled := true,
          pendingTimers := [15000], currentInterval := 15000,
          isActive := true, hidden := true } =
      { store := ⟨some ⟨"sess0001", 0⟩, [], []⟩, heartbeatEnabled := false,
        pendingTimers := [], currentInterval := 15000,
        isActive := true, hidden := true } ∧
    (run (handleVisibilityChange
        { store := ⟨some ⟨"sess0001", 0⟩, [], []⟩, heartbeatEnabled := true,
          pendingTimers := [15000], currentInterval := 15000,
          isActive := true, hidden := true })
      [Lbl.tick 20000, Lbl.envShow, Lbl.envHide, Lbl.mount, Lbl.tick 60000]).2 = [] := by
  have h := visibility_hide_suppresses_after_handler
    { store := ⟨some ⟨"sess0001", 0⟩, [], []⟩, heartbeatEnabled := true,
      pendingTimers := [15000], currentInterval := 15000,
      isActive := true, hidden := true }
    [Lbl.tick 20000, Lbl.envShow, Lbl.envHide, Lbl.mount, Lbl.tick 60000]
    rfl (by decide)
  exact ⟨by simpa using h.1, h.2⟩

/-! ## Interval progression -/

def isActivityLbl : Lbl → Prop
  | .activity _ _ => True
  | _ => False

instance (l : Lbl) : Decidable (isActivityLbl l) := by
  cases l <;> simp [isActivityLbl] <;> infer_instance

theorem mem_intervals_cases (cur : Int) (h : cur ∈ intervals) :
    cur = 15000 ∨ cur = 60000 ∨ cur = 300000 ∨ cur = 900000 := by
  simpa [intervals] using h

theorem advanceInterval_mem (cur : Int) (h : cur ∈ intervals) :
    advanceInterval cur ∈ intervals := by
  rcases mem_intervals_cases cur h with h | h | h | h <;> subst h <;> decide

theorem advanceInterval_forward (cur : Int) (h : cur ∈ intervals) :
    intervals.indexOf cur ≤ intervals.indexOf (advanceInterval cur) := by
  rcases mem_intervals_cases cur h with h | h | h | h <;> subst h <;> decide

theorem step_interval_mem (s : EngineState) (l : Lbl)
    (h : s.currentInterval ∈ intervals) :
    ((step s l).1).currentInterval ∈ intervals := by
  cases l with
  | tick now =>
    by_cases hp : s.pendingTimers.isEmpty
    · simpa [step, hp] using h
    · simp only [step, hp, Bool.false_eq_true, if_false]
      rcases heartbeatTick_interval s now with he | he <;> rw [he]
      · exact h
      · exact advanceInterval_mem _ h
  | activity now bytes =>
    have ha := handleActivity_interval s now bytes
    simp only [step]
    rw [ha]
    decide
  | envHide => simpa [step] using h
  | envShow => simpa [step] using h
  | visHandler =>
    simp only [step, handleVisibilityChange]
    split
    · simpa using h
    · rw [scheduleNextHeartbeat_interval]
      simpa using h
  | mount =>
    simp only [step]
    rw [scheduleNextHeartbeat_interval]
    simpa using h

theorem run_interval_mem (lbls : List Lbl) :
    ∀ s : EngineState, s.currentInterval ∈ intervals →
      ((run s lbls).1).currentInterval ∈ intervals := by
  induction lbls with
  | nil => intro s h; exact h
  | cons l ls ih =>
    intro s h
    simp only [run]
    exact ih _ (step_interval_mem s l h)

theorem step_interval_forward (s : EngineState) (l : Lbl)
    (hl : ¬ isActivityLbl l) (h : s.currentInterval ∈ intervals) :
    intervals.indexOf s.currentInterval ≤
      intervals.indexOf (((step s l).1).currentInterval) := by
  cases l with
  | tick now =>
    by_cases hp : s.pendingTimers.isEmpty
    · simp [step, hp]
    · simp only [step, hp, Bool.false_eq_true, if_false]
      rcases heartbeatTick_interval s now with he | he
      · rw [he]
      · rw [he]
        exact advanceInterval_forward _ h
  | activity now bytes => exact absurd trivial hl
  | envHide => simp [step]
  | envShow => simp [step]
  | visHandler =>
    simp only [step, handleVisibilityChange]
    split
    · simp
    · rw [scheduleNextHeartbeat_interval]
  | mount =>
    simp only [step]
    rw [scheduleNextHeartbeat_interval]

/-- C6 counterexample, on a reachable trace: mount at `t = 0` schedules
the 15s timer; activity at `t = 14s` moves `last_activity` to `14s` and
leaves the interval at the 15s minimum; the timer fires at `t = 15s`
with an idle time of 1s — which has NOT exceeded the current 15s
interval — yet the interval advances to 60s.  This refutes the claim
that the interval advances "only when the idle time has exceeded the
current interval": the exported revision advances unconditionally
whenever a larger step remains. -/
theorem interval_advance_without_idle_counterexample :
    ((run (engineInit "sess0001" 0) [Lbl.mount, Lbl.activity 14000 []]).1).currentInterval
      = 15000 ∧
    timeSinceActivity
        ((run (engineInit "sess0001" 0) [Lbl.mount, Lbl.activity 14000 []]).1) 15000
      = 1000 ∧
    (step ((run (engineInit "sess0001" 0) [Lbl.mount, Lbl.activity 14000 []]).1)
        (.tick 15000)).1.currentInterval = 60000 := by
  decide

/-- C6 (amended): the cadence interval moves only forward through the
fixed sequence 15s, 60s, 5m, 15m on every step other than an activity
step — but, unlike the claim, a timer fire advances it one step whenever
a larger step remains, regardless of whether the idle time has exceeded
the current interval (see the counterexample); it never leaves the
sequence (hence never exceeds the 15-minute maximum), and every activity
event resets it to the 15s minimum. -/
theorem interval_progression_spec (s : EngineState) (l : Lbl) (lbls : List Lbl)
    (now : Int) (bytes : List Nat)
    (hmem : s.currentInterval ∈ intervals) (hl : ¬ isActivityLbl l) :
    (advanceInterval 15000 = 60000 ∧ advanceInterval 60000 = 300000 ∧
      advanceInterval 300000 = 900000 ∧ advanceInterval 900000 = 900000) ∧
    intervals.indexOf s.currentInterval ≤
      intervals.indexOf (((step s l).1).currentInterval) ∧
    ((run s lbls).1).currentInterval ∈ intervals ∧
    ((run s lbls).1).currentInterval ≤ 900000 ∧
    ((step s (.activity now bytes)).1).currentInterval = 15000 := by
  have hrun := run_interval_mem lbls s hmem
  refine ⟨by decide, step_interval_forward s l hl hmem, hrun, ?_, ?_⟩
  · rcases mem_intervals_cases _ hrun with h | h | h | h <;> rw [h] <;> decide
  · simp only [step]
    exact handleActivity_interval s now bytes

/-- Witness for `interval_progression_spec`: the mounted initial state,
a tick label, and a run that advances the interval twice. -/
theorem interval_progression_spec_witness :
    (advanceInterval 15000 = 60000 ∧ advanceInterval 60000 = 300000 ∧
      advanceInterval 300000 = 900000 ∧ advanceInterval 900000 = 900000) ∧
    intervals.indexOf (engineInit "sess0001" 0).currentInterval ≤
      intervals.indexOf
        (((step (engineInit "sess0001" 0) (.tick 15000)).1).currentInterval) ∧
    ((run (engineInit "sess0001" 0)
        [Lbl.mount, Lbl.tick 15000, Lbl.tick 75000]).1).currentInterval ∈ intervals ∧
    ((run (engineInit "sess0001" 0)
        [Lbl.mount, Lbl.tick 15000, Lbl.tick 75000]).1).currentInterval ≤ 900000 ∧
    ((step (engineInit "sess0001" 0) (.activity 1000 [1, 2, 3, 4])).1).currentInterval
      = 15000 :=
  interval_progression_spec (engineInit "sess0001" 0) (.tick 15000)
    [Lbl.mount, Lbl.tick 15000, Lbl.tick 75000] 1000 [1, 2, 3, 4]
    (by decide) (by decide)

/-! ## Helper lemmas about the username slug -/

theorem runsToHyphenAux_mem (p : Char → Bool) :
    ∀ (l : List Char) (b : Bool) (c : Char),
      c ∈ runsToHyphenAux p b l → c = '-' ∨ c ∈ l := by
  intro l
  induction l with
  | nil => intro b c hc; simp [runsToHyphenAux] at hc
  | cons a rest ih =>
    intro b c hc
    simp only [runsToHyphenAux] at hc
    split at hc
    · split at hc
      · rcases ih true c hc with h | h
        · exact Or.inl h
        · exact Or.inr (List.mem_cons_of_mem a h)
      · rcases List.mem_cons.mp hc with h | h
        · exact Or.inl h
        · rcases ih true c h with h2 | h2
          · exact Or.inl h2
          · exact Or.inr (List.mem_cons_of_mem a h2)
    · rcases List.mem_cons.mp hc with h | h
      · exact Or.inr (by simp [h])
      · rcases ih false c h with h2 | h2
        · exact Or.inl h2
        · exact Or.inr (List.mem_cons_of_mem a h2)

theorem trimHyphens_subset (l : List Char) (c : Char) (h : c ∈ trimHyphens l) :
    c ∈ l := by
  unfold trimHyphens at h
  rw [List.mem_reverse] at h
  have h2 := (List.dropWhile_sublist _).subset h
  rw [List.mem_reverse] at h2
  exact (List.dropWhile_sublist _).subset h2

theorem cleanUsernameList_slugChars (l : List Char) (c : Char)
    (hc : c ∈ cleanUsernameList l) : isSlugChar c = true := by
  simp only [cleanUsernameList] at hc
  have h1 := trimHyphens_subset _ _ (List.take_subset _ _ hc)
  rcases runsToHyphenAux_mem _ _ _ _ h1 with h | h
  · subst h; decide
  · exact (List.mem_filter.mp h).2

theorem cleanUsername_slugChars (u : String) :
    (cleanUsername u).data.all isSlugChar = true := by
  unfold cleanUsername
  split
  · decide
  · exact List.all_eq_true.mpr fun c hc => cleanUsernameList_slugChars _ c hc

theorem cleanUsername_length (u : String) : (cleanUsername u).length ≤ 50 := by
  unfold cleanUsername
  split
  · decide
  · show (cleanUsernameList u.data).length ≤ 50
    simp only [cleanUsernameList, List.length_take]
    exact min_le_left _ _

/-- C8: for every username whose trim is non-empty, `generateVisitorId`
returns the deterministic slug `cleanUsername` — obtained by trimming,
lowercasing, replacing whitespace runs with hyphens, stripping characters
outside `[a-z0-9-]`, collapsing repeated hyphens, trimming leading and
trailing hyphens and capping at 50 characters, with `"unknown-user"`
replacing an empty result.  Repeated calls — with any environment,
clock or stored state — return the identical identifier, the result is
at most 50 characters of the slug alphabet (`"unknown-user"` included),
and `getClientData` reports `isNewVisitor = false` for such an
identified visitor, which is the `is_new_visitor` field of every event
payload it populates. -/
theorem identified_visitor_spec (env env2 : Env) (now now2 : Int) (nowIso : String)
    (u : String) (store store2 : DurableStore) (bytes : List Nat)
    (session : SessionStore) (hu : jsTrim u ≠ "") :
    (generateVisitorId env now (some u) store).1 = cleanUsername u ∧
    (generateVisitorId env2 now2 (some u) store2).1 =
      (generateVisitorId env now (some u) store).1 ∧
    (cleanUsername u).length ≤ 50 ∧
    (cleanUsername u).data.all isSlugChar = true ∧
    (getClientData env now nowIso (some u) bytes store session).data.isNewVisitor
      = false := by
  have h1 : ∀ (e : Env) (n : Int) (st : DurableStore),
      (generateVisitorId e n (some u) st).1 = cleanUsername u := by
    intro e n st
    simp [generateVisitorId, hu]
  have hid : isIdentified (some u) = true := by
    simp [isIdentified, hu]
  refine ⟨h1 env now store, by rw [h1, h1], cleanUsername_length u,
    cleanUsername_slugChars u, ?_⟩
  simp only [getClientData]
  rw [hid]
  rfl

/-- Witness for `identified_visitor_spec` at the username
`"  John   Doe!  "`, whose slug is `"john-doe"`. -/
theorem identified_visitor_spec_witness :
    (generateVisitorId ⟨"agentX", "en", 800, 600, 640, 480, some 4, "UTC"⟩
        1679616000000 (some "  John   Doe!  ") ⟨none, []⟩).1 =
      cleanUsername "  John   Doe!  " ∧
    (generateVisitorId ⟨"agentY", "fr", 1024, 768, 640, 480, none, "CET"⟩
        1679616060000 (some "  John   Doe!  ") ⟨some ⟨"other", 9999999999999⟩, []⟩).1 =
      (generateVisitorId ⟨"agentX", "en", 800, 600, 640, 480, some 4, "UTC"⟩
        1679616000000 (some "  John   Doe!  ") ⟨none, []⟩).1 ∧
    (cleanUsername "  John   Doe!  ").length ≤ 50 ∧
    (cleanUsername "  John   Doe!  ").data.all isSlugChar = true ∧
    (getClientData ⟨"agentX", "en", 800, 600, 640, 480, some 4, "UTC"⟩
        1679616000000 "2023-03-23T00:00:00.000Z" (some "  John   Doe!  ")
        [10, 10, 10, 10] ⟨none, []⟩
        ⟨some ⟨"sess0001", 1679616000000⟩, [], []⟩).data.isNewVisitor = false :=
  identified_visitor_spec ⟨"agentX", "en", 800, 600, 640, 480, some 4, "UTC"⟩
    ⟨"agentY", "fr", 1024, 768, 640, 480, none, "CET"⟩
    1679616000000 1679616060000 "2023-03-23T00:00:00.000Z" "  John   Doe!  "
    ⟨none, []⟩ ⟨some ⟨"other", 9999999999999⟩, []⟩ [10, 10, 10, 10]
    ⟨some ⟨"sess0001", 1679616000000⟩, [], []⟩ (by decide)

/-! ## Helper lemmas about the fingerprint identifier -/

theorem digitChar36_range (n : Nat) (h : n < 36) :
    ('0' ≤ digitChar36 n ∧ digitChar36 n ≤ '9') ∨
    ('a' ≤ digitChar36 n ∧ digitChar36 n ≤ 'z') := by
  interval_cases n <;> decide

theorem toBase36Core_chars :
    ∀ fuel n : Nat, ∀ c ∈ toBase36Core fuel n,
      ('0' ≤ c ∧ c ≤ '9') ∨ ('a' ≤ c ∧ c ≤ 'z') := by
  intro fuel
  induction fuel with
  | zero => intro n c hc; simp [toBase36Core] at hc
  | succ fuel ih =>
    intro n c hc
    simp only [toBase36Core] at hc
    by_cases h : n < 36
    · rw [if_pos h] at hc
      simp only [List.mem_singleton] at hc
      subst hc
      exact digitChar36_range n h
    · rw [if_neg h] at hc
      rcases List.mem_append.mp hc with h2 | h2
      · exact ih (n / 36) c h2
      · simp only [List.mem_singleton] at h2
        subst h2
        exact digitChar36_range (n % 36) (Nat.mod_lt _ (by norm_num))

theorem natToBase36_chars (n : Nat) (c : Char) (hc : c ∈ (natToBase36 n).data) :
    ('0' ≤ c ∧ c ≤ '9') ∨ ('a' ≤ c ∧ c ≤ 'z') :=
  toBase36Core_chars 64 n c hc

theorem strIncludes_single_iff (s : String) (c : Char) :
    strIncludes s ⟨[c]⟩ = true ↔ c ∈ s.data := by
  obtain ⟨l⟩ := s
  show (l.tails.any fun t => [c].isPrefixOf t) = true ↔ c ∈ l
  induction l with
  | nil => simp [List.isPrefixOf]
  | cons a rest ih =>
    rw [List.tails_cons]
    simp only [List.any_cons, List.isPrefixOf, Bool.and_true, Bool.or_eq_true,
      beq_iff_eq, List.mem_cons, ih]

theorem natToBase36_no_at (n : Nat) : strIncludes (natToBase36 n) "@" = false := by
  rw [Bool.eq_false_iff]
  intro h
  have hm : '@' ∈ (natToBase36 n).data := (strIncludes_single_iff _ '@').mp h
  rcases natToBase36_chars n '@' hm with ⟨h1, h2⟩ | ⟨h1, h2⟩
  · exact absurd h2 (by decide)
  · exact absurd h1 (by decide)

theorem natToBase36_ne_unknown_user (n : Nat) : natToBase36 n ≠ "unknown-user" := by
  intro h
  have hm : '-' ∈ (natToBase36 n).data := by
    rw [h]; decide
  rcases natToBase36_chars n '-' hm with ⟨h1, h2⟩ | ⟨h1, h2⟩
  · exact absurd h1 (by decide)
  · exact absurd h1 (by decide)

theorem toInt32_range (x : Int) :
    -2147483648 ≤ toInt32 x ∧ toInt32 x < 2147483648 := by
  have h1 : 0 ≤ x % 4294967296 := Int.emod_nonneg x (by norm_num)
  have h2 : x % 4294967296 < 4294967296 := Int.emod_lt_of_pos x (by norm_num)
  simp only [toInt32]
  split <;> omega

theorem fingerprintHash_range (s : String) :
    -2147483648 ≤ fingerprintHash s ∧ fingerprintHash s < 2147483648 := by
  unfold fingerprintHash
  have key : ∀ (l : List Char) (h : Int), -2147483648 ≤ h → h < 2147483648 →
      -2147483648 ≤ l.foldl hashStep h ∧ l.foldl hashStep h < 2147483648 := by
    intro l
    induction l with
    | nil => intro h h1 h2; exact ⟨h1, h2⟩
    | cons c rest ih =>
      intro h h1 h2
      simp only [List.foldl_cons]
      exact ih _ (toInt32_range _).1 (toInt32_range _).2
  exact key _ 0 (by norm_num) (by norm_num)

theorem anonVisitorId_wellformed (env : Env) (now : Int) (store : DurableStore) :
    strIncludes (anonVisitorId env now store).1 "@" = false ∧
    (anonVisitorId env now store).1 ≠ "unknown-user" := by
  have hfp : strIncludes (fingerprintId env) "@" = false := natToBase36_no_at _
  have hfp2 : fingerprintId env ≠ "unknown-user" := natToBase36_ne_unknown_user _
  rcases hst : getStoredVisitorId now store with _ | s'
  · simp only [anonVisitorId, hst]
    exact ⟨hfp, hfp2⟩
  · by_cases hcond : s' ≠ "" ∧ ¬ strIncludes s' "@" = true ∧ s' ≠ "unknown-user"
    · simp only [anonVisitorId, hst, if_pos hcond]
      exact ⟨Bool.eq_false_iff.mpr hcond.2.1, hcond.2.2⟩
    · simp only [anonVisitorId, hst, if_neg hcond]
      exact ⟨hfp, hfp2⟩

/-- C10: on the anonymous path (no username, or a whitespace-only one),
`generateVisitorId` runs the anonymous branch, which reuses a stored
`visitor_id` exactly when it is non-empty, contains no `"@"` and is not
`"unknown-user"`; in every other case (including a missing entry) it
computes the fingerprint identifier — the base-36 rendering of the
absolute value of the 32-bit hash of user-agent, language, screen size,
hardware concurrency and time zone — persists it and returns it.  The
returned identifier therefore never contains `"@"` and is never
`"unknown-user"`, and the hash is indeed within signed 32-bit range. -/
theorem anonymous_visitor_spec (env : Env) (now : Int) (store : DurableStore)
    (s u : String) (hu : jsTrim u = "") :
    generateVisitorId env now none store = anonVisitorId env now store ∧
    generateVisitorId env now (some u) store = anonVisitorId env now store ∧
    (getStoredVisitorId now store = some s → s ≠ "" → strIncludes s "@" = false →
      s ≠ "unknown-user" → anonVisitorId env now store = (s, store)) ∧
    (getStoredVisitorId now store = some s →
      strIncludes s "@" = true ∨ s = "unknown-user" ∨ s = "" →
      anonVisitorId env now store =
        (fingerprintId env, setStoredVisitorId now (fingerprintId env) store)) ∧
    (getStoredVisitorId now store = none →
      anonVisitorId env now store =
        (fingerprintId env, setStoredVisitorId now (fingerprintId env) store)) ∧
    strIncludes (anonVisitorId env now store).1 "@" = false ∧
    (anonVisitorId env now store).1 ≠ "unknown-user" ∧
    fingerprintId env =
      natToBase36 (fingerprintHash (fingerprintString env)).natAbs ∧
    -2147483648 ≤ fingerprintHash (fingerprintString env) ∧
    fingerprintHash (fingerprintString env) < 2147483648 := by
  refine ⟨rfl, by simp [generateVisitorId, hu], ?_, ?_, ?_,
    (anonVisitorId_wellformed env now store).1,
    (anonVisitorId_wellformed env now store).2, rfl,
    (fingerprintHash_range _).1, (fingerprintHash_range _).2⟩
  · intro hst h1 h2 h3
    have hcond : s ≠ "" ∧ ¬ strIncludes s "@" = true ∧ s ≠ "unknown-user" :=
      ⟨h1, by simp [h2], h3⟩
    simp only [anonVisitorId, hst, if_pos hcond]
  · intro hst hbad
    have hcond : ¬ (s ≠ "" ∧ ¬ strIncludes s "@" = true ∧ s ≠ "unknown-user") := by
      rcases hbad with h | h | h <;> simp [h]
    simp only [anonVisitorId, hst, if_neg hcond]
  · intro hst
    simp only [anonVisitorId, hst]

/-- Witness for `anonymous_visitor_spec`, with every hypothesis
discharged at concrete inputs: a stored acceptable id `"gooduser"` is
reused; a stored legacy value `"user@example.com"` is rejected and
replaced by the fingerprint id; a missing entry also yields the
fingerprint id; the username hint is the whitespace string `"  "`. -/
theorem anonymous_visitor_spec_witness :
    generateVisitorId ⟨"agentX", "en", 800, 600, 640, 480, some 4, "UTC"⟩
        1679616000000 none ⟨some ⟨"user@example.com", 9999999999999⟩, []⟩ =
      anonVisitorId ⟨"agentX", "en", 800, 600, 640, 480, some 4, "UTC"⟩
        1679616000000 ⟨some ⟨"user@example.com", 9999999999999⟩, []⟩ ∧
    generateVisitorId ⟨"agentX", "en", 800, 600, 640, 480, some 4, "UTC"⟩
        1679616000000 (some "  ") ⟨some ⟨"user@example.com", 9999999999999⟩, []⟩ =
      anonVisitorId ⟨"agentX", "en", 800, 600, 640, 480, some 4, "UTC"⟩
        1679616000000 ⟨some ⟨"user@example.com", 9999999999999⟩, []⟩ ∧
    anonVisitorId ⟨"agentX", "en", 800, 600, 640, 480, some 4, "UTC"⟩
        1679616000000 ⟨some ⟨"gooduser", 9999999999999⟩, []⟩ =
      ("gooduser", ⟨some ⟨"gooduser", 9999999999999⟩, []⟩) ∧
    anonVisitorId ⟨"agentX", "en", 800, 600, 640, 480, some 4, "UTC"⟩
        1679616000000 ⟨some ⟨"user@example.com", 9999999999999⟩, []⟩ =
      (fingerprintId ⟨"agentX", "en", 800, 600, 640, 480, some 4, "UTC"⟩,
        setStoredVisitorId 1679616000000
          (fingerprintId ⟨"agentX", "en", 800, 600, 640, 480, some 4, "UTC"⟩)
          ⟨some ⟨"user@example.com", 9999999999999⟩, []⟩) ∧
    anonVisitorId ⟨"agentX", "en", 800, 600, 640, 480, some 4, "UTC"⟩
        1679616000000 ⟨none, []⟩ =
      (fingerprintId ⟨"agentX", "en", 800, 600, 640, 480, some 4, "UTC"⟩,
        setStoredVisitorId 1679616000000
          (fingerprintId ⟨"agentX", "en", 800, 600, 640, 480, some 4, "UTC"⟩)
          ⟨none, []⟩) ∧
    strIncludes
        (anonVisitorId ⟨"agentX", "en", 800, 600, 640, 480, some 4, "UTC"⟩
          1679616000000 ⟨some ⟨"user@example.com", 9999999999999⟩, []⟩).1 "@" = false ∧
    (anonVisitorId ⟨"agentX", "en", 800, 600, 640, 480, some 4, "UTC"⟩
        1679616000000 ⟨some ⟨"user@example.com", 9999999999999⟩, []⟩).1 ≠
      "unknown-user" ∧
    fingerprintId ⟨"agentX", "en", 800, 600, 640, 480, some 4, "UTC"⟩ =
      natToBase36
        (fingerprintHash
          (fingerprintString ⟨"agentX", "en", 800, 600, 640, 480, some 4, "UTC"⟩)).natAbs ∧
    -2147483648 ≤
      fingerprintHash
        (fingerprintString ⟨"agentX", "en", 800, 600, 640, 480, some 4, "UTC"⟩) ∧
    fingerprintHash
        (fingerprintString ⟨"agentX", "en", 800, 600, 640, 480, some 4, "UTC"⟩) <
      2147483648 := by
  have h1 := anonymous_visitor_spec ⟨"agentX", "en", 800, 600, 640, 480, some 4, "UTC"⟩
    1679616000000 ⟨some ⟨"user@example.com", 9999999999999⟩, []⟩
    "user@example.com" "  " (by decide)
  have h2 := anonymous_visitor_spec ⟨"agentX", "en", 800, 600, 640, 480, some 4, "UTC"⟩
    1679616000000 ⟨some ⟨"gooduser", 9999999999999⟩, []⟩
    "gooduser" "  " (by decide)
  have h3 := anonymous_visitor_spec ⟨"agentX", "en", 800, 600, 640, 480, some 4, "UTC"⟩
    1679616000000 ⟨none, []⟩ "gooduser" "  " (by decide)
  exact ⟨h1.1, h1.2.1,
    h2.2.2.1 (by decide) (by decide) (by decide) (by decide),
    h1.2.2.2.1 (by decide) (Or.inl (by decide)),
    h3.2.2.2.2.1 (by decide),
    h1.2.2.2.2.2.1, h1.2.2.2.2.2.2.1, h1.2.2.2.2.2.2.2.1,
    h1.2.2.2.2.2.2.2.2.1, h1.2.2.2.2.2.2.2.2.2⟩

/-! ## The per-session "is new visitor" cache -/

theorem generateSessionId_cache (now : Int) (bytes : List Nat)
    (store : SessionStore) :
    ((generateSessionId now bytes store).2).newVisitorCache =
      store.newVisitorCache := by
  simp only [generateSessionId, mintSession]
  repeat' split
  all_goals rfl

set_option maxRecDepth 100000 in
/-- C9 counterexample: for an anonymous visitor with fingerprint id
`"9h7i4s"` and a live session with id `"sess0001"`, the first
`getClientData` call caches the new-visitor determination in
session-scoped storage under the key `isNewVisitor_9h7i4s` — the key is
built from the VISITOR id, not the session id, so nothing is stored
under `isNewVisitor_sess0001`, refuting the claimed key shape
`isNewVisitor_<sessionId>`. -/
theorem newVisitor_cache_key_counterexample :
    (generateVisitorId ⟨"agentX", "en", 800, 600, 640, 480, some 4, "UTC"⟩
        1679616000000 none ⟨none, []⟩).1 = "9h7i4s" ∧
    (getClientData ⟨"agentX", "en", 800, 600, 640, 480, some 4, "UTC"⟩
        1679616000000 "2023-03-23T00:00:00.000Z" none [10, 10, 10, 10] ⟨none, []⟩
        ⟨some ⟨"sess0001", 1679616000000⟩, [], []⟩).data.isNewSession = false ∧
    (getClientData ⟨"agentX", "en", 800, 600, 640, 480, some 4, "UTC"⟩
        1679616000000 "2023-03-23T00:00:00.000Z" none [10, 10, 10, 10] ⟨none, []⟩
        ⟨some ⟨"sess0001", 1679616000000⟩, [], []⟩).session.newVisitorCache =
      [("isNewVisitor_9h7i4s", true)] ∧
    ((getClientData ⟨"agentX", "en", 800, 600, 640, 480, some 4, "UTC"⟩
        1679616000000 "2023-03-23T00:00:00.000Z" none [10, 10, 10, 10] ⟨none, []⟩
        ⟨some ⟨"sess0001", 1679616000000⟩, [], []⟩).session.newVisitorCache.lookup
      "isNewVisitor_sess0001") = none := by
  decide

/-- C9 (amended): for anonymous visitors the is-this-visitor-new
determination is computed at most once per browsing session and cached
in session-scoped storage under the key `isNewVisitor_<visitorId>` (the
visitor id, not — as the claim stated — the session id): when the cache
is empty for that key, `getClientData` computes the flag from durable
storage, stores it under that key, and marks the visitor as seen in
durable storage exactly when it was new; when the cache holds a value,
that value is returned and neither the cache nor the durable visitor
marks change, so every event emitted in the same session reads back the
same cached boolean. -/
theorem newVisitor_cache_spec (env : Env) (now : Int) (nowIso : String)
    (bytes : List Nat) (durable : DurableStore) (session : SessionStore) (b : Bool) :
    (session.newVisitorCache.lookup
        ("isNewVisitor_" ++ (generateVisitorId env now none durable).1) = none →
      (getClientData env now nowIso none bytes durable session).data.isNewVisitor =
        !(hasVisitor now (generateVisitorId env now none durable).2
            (generateVisitorId env now none durable).1) ∧
      (getClientData env now nowIso none bytes durable session).session.newVisitorCache =
        insertAssoc ("isNewVisitor_" ++ (generateVisitorId env now none durable).1)
          ((getClientData env now nowIso none bytes durable session).data.isNewVisitor)
          session.newVisitorCache ∧
      (getClientData env now nowIso none bytes durable session).durable =
        (if (getClientData env now nowIso none bytes durable session).data.isNewVisitor
          then setVisitor now (generateVisitorId env now none durable).1
            (generateVisitorId env now none durable).2
          else (generateVisitorId env now none durable).2)) ∧
    (session.newVisitorCache.lookup
        ("isNewVisitor_" ++ (generateVisitorId env now none durable).1) = some b →
      (getClientData env now nowIso none bytes durable session).data.isNewVisitor = b ∧
      (getClientData env now nowIso none bytes durable session).session.newVisitorCache =
        session.newVisitorCache ∧
      (getClientData env now nowIso none bytes durable session).durable =
        (generateVisitorId env now none durable).2) := by
  have hc : ((generateSessionId now bytes session).2).newVisitorCache =
      session.newVisitorCache := generateSessionId_cache now bytes session
  constructor
  · intro hlook
    simp only [getClientData, isIdentified, Bool.false_eq_true, if_false]
    rw [hc, hlook]
    refine ⟨rfl, ?_, rfl⟩
    dsimp only
    repeat' split
    all_goals rfl
  · intro hlook
    simp only [getClientData, isIdentified, Bool.false_eq_true, if_false]
    rw [hc, hlook]
    refine ⟨rfl, ?_, rfl⟩
    dsimp only
    repeat' split
    all_goals exact hc

set_option maxRecDepth 200000 in
/-- Witness for `newVisitor_cache_spec`, with both hypotheses discharged:
a cache-miss call on an empty cache (which computes, caches under
`isNewVisitor_9h7i4s` and marks the visitor), and a cache-hit call on a
session store already holding `("isNewVisitor_9h7i4s", true)`. -/
theorem newVisitor_cache_spec_witness :
    ((getClientData ⟨"agentX", "en", 800, 600, 640, 480, some 4, "UTC"⟩
        1679616000000 "2023-03-23T00:00:00.000Z" none [10, 10, 10, 10] ⟨none, []⟩
        ⟨some ⟨"sess0001", 1679616000000⟩, [], []⟩).data.isNewVisitor =
      !(hasVisitor 1679616000000
          (generateVisitorId ⟨"agentX", "en", 800, 600, 640, 480, some 4, "UTC"⟩
            1679616000000 none ⟨none, []⟩).2
          (generateVisitorId ⟨"agentX", "en", 800, 600, 640, 480, some 4, "UTC"⟩
            1679616000000 none ⟨none, []⟩).1) ∧
      (getClientData ⟨"agentX", "en", 800, 600, 640, 480, some 4, "UTC"⟩
          1679616000000 "2023-03-23T00:00:00.000Z" none [10, 10, 10, 10] ⟨none, []⟩
          ⟨some ⟨"sess0001", 1679616000000⟩, [], []⟩).session.newVisitorCache =
        insertAssoc
          ("isNewVisitor_" ++
            (generateVisitorId ⟨"agentX", "en", 800, 600, 640, 480, some 4, "UTC"⟩
              1679616000000 none ⟨none, []⟩).1)
          ((getClientData ⟨"agentX", "en", 800, 600, 640, 480, some 4, "UTC"⟩
              1679616000000 "2023-03-23T00:00:00.000Z" none [10, 10, 10, 10] ⟨none, []⟩
              ⟨some ⟨"sess0001", 1679616000000⟩, [], []⟩).data.isNewVisitor)
          (⟨some ⟨"sess0001", 1679616000000⟩, [], []⟩ :
            SessionStore).newVisitorCache ∧
      (getClientData ⟨"agentX", "en", 800, 600, 640, 480, some 4, "UTC"⟩
          1679616000000 "2023-03-23T00:00:00.000Z" none [10, 10, 10, 10] ⟨none, []⟩
          ⟨some ⟨"sess0001", 1679616000000⟩, [], []⟩).durable =
        (if (getClientData ⟨"agentX", "en", 800, 600, 640, 480, some 4, "UTC"⟩
              1679616000000 "2023-03-23T00:00:00.000Z" none [10, 10, 10, 10] ⟨none, []⟩
              ⟨some ⟨"sess0001", 1679616000000⟩, [], []⟩).data.isNewVisitor
          then setVisitor 1679616000000
            (generateVisitorId ⟨"agentX", "en", 800, 600, 640, 480, some 4, "UTC"⟩
              1679616000000 none ⟨none, []⟩).1
            (generateVisitorId ⟨"agentX", "en", 800, 600, 640, 480, some 4, "UTC"⟩
              1679616000000 none ⟨none, []⟩).2
          else (generateVisitorId ⟨"agentX", "en", 800, 600, 640, 480, some 4, "UTC"⟩
            1679616000000 none ⟨none, []⟩).2)) ∧
    ((getClientData ⟨"agentX", "en", 800, 600, 640, 480, some 4, "UTC"⟩
        1679616000000 "2023-03-23T00:00:00.000Z" none [10, 10, 10, 10] ⟨none, []⟩
        ⟨some ⟨"sess0001", 1679616000000⟩,
          [("isNewVisitor_9h7i4s", true)], []⟩).data.isNewVisitor = true ∧
      (getClientData ⟨"agentX", "en", 800, 600, 640, 480, some 4, "UTC"⟩
          1679616000000 "2023-03-23T00:00:00.000Z" none [10, 10, 10, 10] ⟨none, []⟩
          ⟨some ⟨"sess0001", 1679616000000⟩,
            [("isNewVisitor_9h7i4s", true)], []⟩).session.newVisitorCache =
        (⟨some ⟨"sess0001", 1679616000000⟩,
          [("isNewVisitor_9h7i4s", true)], []⟩ : SessionStore).newVisitorCache ∧
      (getClientData ⟨"agentX", "en", 800, 600, 640, 480, some 4, "UTC"⟩
          1679616000000 "2023-03-23T00:00:00.000Z" none [10, 10, 10, 10] ⟨none, []⟩
          ⟨some ⟨"sess0001", 1679616000000⟩,
            [("isNewVisitor_9h7i4s", true)], []⟩).durable =
        (generateVisitorId ⟨"agentX", "en", 800, 600, 640, 480, some 4, "UTC"⟩
          1679616000000 none ⟨none, []⟩).2) := by
  have h1 := newVisitor_cache_spec
    ⟨"agentX", "en", 800, 600, 640, 480, some 4, "UTC"⟩ 1679616000000
    "2023-03-23T00:00:00.000Z" [10, 10, 10, 10] ⟨none, []⟩
    ⟨some ⟨"sess0001", 1679616000000⟩, [], []⟩ true
  have h2 := newVisitor_cache_spec
    ⟨"agentX", "en", 800, 600, 640, 480, some 4, "UTC"⟩ 1679616000000
    "2023-03-23T00:00:00.000Z" [10, 10, 10, 10] ⟨none, []⟩
    ⟨some ⟨"sess0001", 1679616000000⟩, [("isNewVisitor_9h7i4s", true)], []⟩ true
  exact ⟨h1.1 (by decide), h2.2 (by decide)⟩

end Analytics
